import Mathlib

/-!
Shallow embedding of `bin/vs.py` (vertical structure of accretion discs).

Python floats are modelled as exact rationals `ℚ`.  The two external
numeric routines the module calls (`scipy.integrate.solve_ivp` and
`scipy.optimize.brentq`) and the two transcendental primitives it uses
(`np.sqrt`, float `**` with fractional exponents, `np.pi`) are not code of
this repository; they are abstracted as explicit function parameters
(`IvpScalar`, `Ivp4`, `brentq`, `NumModel`), so every theorem below is
quantified over them.  Python float `**` raises `ZeroDivisionError` on a
zero base with a negative exponent; that partiality is kept explicitly
(`pyPow`).  The physics laws (`law_of_rho`, `law_of_opacity`) are abstract
methods of the Python base class supplied by mixins; they are likewise
fields of a `Laws` record.  The concrete mixin opacity laws are embedded
separately over `ℝ` because they use fractional powers.
-/

namespace VS

/-- CGS value of the Stefan-Boltzmann constant used by the module
(`const.sigma_sb.cgs.value`), as an exact rational of the float. -/
def sigmaSB : ℚ := 5.670374419e-5

/-- CGS gas constant `const.R.cgs.value`. -/
def R_gas : ℚ := 8.31446261815324e7

/-- CGS gravitational constant `const.G.cgs.value`. -/
def G : ℚ := 6.6743e-8

/-- CGS solar mass `const.M_sun.cgs.value` (rational of the float). -/
def M_sun : ℚ := 1.98840987e33

/-- The four dimensionless unknowns of the vertical-structure system
(the Python code indexes a 4-array through the `Vars` enum `S P Q T`). -/
structure Vec4 where
  S : ℚ
  P : ℚ
  Q : ℚ
  T : ℚ
  deriving DecidableEq, Repr

/-- The error kinds the Python interpreter can raise in the embedded code:
`ZeroDivisionError` (float `0.0 ** negative`), `AssertionError`
(the `assert` in `integrate`), `IndexError` (indexing an empty array). -/
inductive PyErr where
  | zeroDivision
  | assertionError
  | indexError
  deriving DecidableEq, Repr

/-- Abstraction of the numeric primitives `np.sqrt`, `np.pi` and the total
part of float `**` that the module takes from numpy / the Python runtime. -/
structure NumModel where
  sqrtQ : ℚ → ℚ
  piQ : ℚ
  powQ : ℚ → ℚ → ℚ

/-- Python float power `b ** e`: raises `ZeroDivisionError` exactly when the
base is zero and the exponent negative, otherwise some float value
(abstracted by `NumModel.powQ`). -/
def pyPow (nm : NumModel) (b e : ℚ) : Except PyErr ℚ :=
  if b = 0 ∧ e < 0 then .error .zeroDivision else .ok (nm.powQ b e)

/-- The EOS / opacity capabilities that the Python mixins
(`IdealGasMixin`, `KramersOpacityMixin`, ...) inject into
`BaseVerticalStructure`: `law_of_rho (P, T)` returns the density, the
auxiliary EOS datum `lnfree_e` (the ideal-gas mixin returns the constant
`0.0`), and `law_of_opacity (rho, T, lnfree_e)` the opacity. -/
structure Laws where
  law_of_rho : ℚ → ℚ → ℚ
  lnfree_e : ℚ
  law_of_opacity : ℚ → ℚ → ℚ → ℚ

/-- The attribute state of a `BaseVerticalStructure` instance. -/
structure Session where
  Mx : ℚ
  GM : ℚ
  alpha : ℚ
  r : ℚ
  F : ℚ
  omegaK : ℚ
  eps : ℚ
  mu : ℚ
  Q_norm : ℚ
  Q0 : ℚ
  z0 : ℚ
  P_norm : ℚ
  T_norm : ℚ
  sigma_norm : ℚ
  Teff : ℚ

/-- The `z0` property setter (vs.py lines 106-111): stores the new `z0` and
recomputes the three scale constants `P_norm`, `T_norm`, `sigma_norm`;
nothing else is touched. -/
def setZ0 (s : Session) (z0 : ℚ) : Session :=
  { s with
    z0 := z0
    P_norm := (4 / 3) * s.Q_norm / (s.alpha * z0 * s.omegaK)
    T_norm := s.omegaK ^ 2 * s.mu * z0 ^ 2 / R_gas
    sigma_norm := 28 * s.Q_norm / (3 * s.alpha * z0 ^ 2 * s.omegaK ^ 3) }

/-- `z0_init` (vs.py lines 290-292): closed-form initial estimate of `z0`.
Each float `**` is a `pyPow` in the source's left-to-right order. -/
def z0_init (nm : NumModel) (Mx alpha r F : ℚ) : Except PyErr ℚ :=
  match pyPow nm F (3 / 20) with
  | .error e => .error e
  | .ok a =>
    match pyPow nm (Mx / M_sun) (-9 / 20) with
    | .error e => .error e
    | .ok b =>
      match pyPow nm alpha (-1 / 10) with
      | .error e => .error e
      | .ok c =>
        match pyPow nm (r / 1e10) (1 / 20) with
        | .error e => .error e
        | .ok d => .ok (r * 2.86e-7 * a * b * c * d)

/-- The raw physical inputs of `BaseVerticalStructure.__init__`. -/
structure Inputs where
  Mx : ℚ
  alpha : ℚ
  r : ℚ
  F : ℚ
  eps : ℚ
  mu : ℚ

/-- `BaseVerticalStructure.__init__` (vs.py lines 87-100), in source order:
`GM = G*Mx`; `omegaK = sqrt(GM/r**3)`; `Q_norm = Q0 = (3/(8 pi)) F omegaK / r**2`;
`z0 = z0_init()` (running the `z0` setter, which fills the scale constants);
`Teff = (Q0/sigmaSB)**(1/4)`.  The code performs no input validation at all:
the only failure points are the fractional powers. -/
def mkSession (nm : NumModel) (i : Inputs) : Except PyErr Session :=
  let GM := G * i.Mx
  let omegaK := nm.sqrtQ (GM / i.r ^ 3)
  let Q0 := (3 / (8 * nm.piQ)) * i.F * omegaK / i.r ^ 2
  match z0_init nm i.Mx i.alpha i.r i.F with
  | .error e => .error e
  | .ok z0 =>
    match pyPow nm (Q0 / sigmaSB) (1 / 4) with
    | .error e => .error e
    | .ok Teff =>
      .ok (setZ0
        { Mx := i.Mx, GM := GM, alpha := i.alpha, r := i.r, F := i.F
          omegaK := omegaK, eps := i.eps, mu := i.mu
          Q_norm := Q0, Q0 := Q0, z0 := z0
          P_norm := 0, T_norm := 0, sigma_norm := 0, Teff := Teff } z0)

/-- `law_of_viscosity` (vs.py line 113-114). -/
def law_of_viscosity (s : Session) (P : ℚ) : ℚ := s.alpha * P

/-- `viscosity` (vs.py line 122-123). -/
def viscosity (s : Session) (y : Vec4) : ℚ := law_of_viscosity s (y.P * s.P_norm)

/-- `rho` helper (vs.py line 125-126): density from the EOS law at the
de-normalized pressure and temperature. -/
def rhoOf (L : Laws) (s : Session) (y : Vec4) : ℚ :=
  L.law_of_rho (y.P * s.P_norm) (y.T * s.T_norm)

/-- `opacity` helper (vs.py lines 128-130). -/
def opacityOf (L : Laws) (s : Session) (y : Vec4) : ℚ :=
  L.law_of_opacity (rhoOf L s y) (y.T * s.T_norm) L.lnfree_e

/-- `dQdz` (vs.py lines 170-172). -/
def dQdz (s : Session) (y : Vec4) : ℚ :=
  -(3 / 2) * s.z0 * s.omegaK * viscosity s y / s.Q_norm

/-- The `t == 1` branch of `RadiativeTempGradient.dlnTdlnP`
(vs.py lines 335-337). -/
def dlnTdlnP_special (L : Laws) (s : Session) (y : Vec4) : ℚ :=
  -dQdz s y * (y.P / y.T ^ 4) * 3 * opacityOf L s y *
      (s.Q_norm * s.P_norm / s.T_norm ^ 4) / (16 * sigmaSB * s.z0 * s.omegaK ^ 2)

/-- The general branch of `RadiativeTempGradient.dlnTdlnP`
(vs.py lines 338-342). -/
def dlnTdlnP_general (L : Laws) (s : Session) (y : Vec4) (t : ℚ) : ℚ :=
  let rho := rhoOf L s y
  let varkappa := opacityOf L s y
  let dTdz := (|y.Q| / y.T ^ 3) * 3 * varkappa * rho * s.z0 * s.Q_norm /
      (16 * sigmaSB * s.T_norm ^ 4)
  let dPdz := rho * (1 - t) * s.omegaK ^ 2 * s.z0 ^ 2 / s.P_norm
  (y.P / y.T) * (dTdz / dPdz)

/-- `RadiativeTempGradient.dlnTdlnP` (vs.py lines 331-343): the special
closed form when `t == 1`, the general formula otherwise. -/
def dlnTdlnP (L : Laws) (s : Session) (y : Vec4) (t : ℚ) : ℚ :=
  if t = 1 then dlnTdlnP_special L s y else dlnTdlnP_general L s y t

/-- `dydt` (vs.py lines 174-200).  The first component models the
`if y[Vars.T] < 0 or y[Vars.S] < 0: print(...); breakpoint()` guard: the
flag is `true` when the guard fires.  The guard is only a print plus a
debugger breakpoint; execution then continues, so the derivative vector
(second component) is computed in every case. -/
def dydt (L : Laws) (s : Session) (t : ℚ) (y : Vec4) : Bool × Vec4 :=
  let rho := rhoOf L s y
  let dyS := 2 * rho * s.z0 / s.sigma_norm
  let dyP := rho * (1 - t) * s.omegaK ^ 2 * s.z0 ^ 2 / s.P_norm
  let dyQ := dQdz s y
  let grad := dlnTdlnP L s y t
  let dyT := grad * dyP * y.T / y.P
  (decide (y.T < 0 ∨ y.S < 0), { S := dyS, P := dyP, Q := dyQ, T := dyT })

/-- Derivative vector alone, as handed to the ODE solver. -/
def dydtVec (L : Laws) (s : Session) (t : ℚ) (y : Vec4) : Vec4 :=
  (dydt L s t y).2

/-- Abstraction of `scipy.integrate.solve_ivp` on the scalar photospheric
problem: arguments are the right-hand side, the two interval endpoints, the
initial value and `rtol`; the result models `solution.y[0][-1]`. -/
abbrev IvpScalar := (ℚ → ℚ → ℚ) → ℚ → ℚ → ℚ → ℚ → ℚ

/-- Abstraction of `scipy.integrate.solve_ivp` on the four-variable interior
problem: right-hand side, interval endpoints, initial state, `t_eval` grid and
`rtol`; the result models `(solution.y, solution.message)`.  The fixed
`method='RK23'` argument is a constant and is not modelled. -/
abbrev Ivp4 := (ℚ → Vec4 → Vec4) → ℚ → ℚ → Vec4 → List ℚ → ℚ → List Vec4 × String

/-- `photospheric_pressure_equation` (vs.py lines 132-136). -/
def photospheric_pressure_equation (nm : NumModel) (L : Laws) (s : Session)
    (tau P : ℚ) : ℚ :=
  let T := s.Teff * nm.powQ (1 / 2 + 3 * tau / 4) (1 / 4)
  let rho := L.law_of_rho P T
  let varkappa := L.law_of_opacity rho T L.lnfree_e
  s.z0 * s.omegaK ^ 2 / varkappa

/-- `P_ph` (vs.py lines 138-144): terminal value at `tau = 2/3` of the
photospheric pressure IVP started from the floor `1e-7 * P_norm` at
`tau = 0`, solved with relative tolerance `eps`. -/
def P_ph (nm : NumModel) (ivpP : IvpScalar) (L : Laws) (s : Session) : ℚ :=
  ivpP (photospheric_pressure_equation nm L s) 0 (2 / 3) (1e-7 * s.P_norm) s.eps

/-- `Q_initial` (vs.py lines 146-147). -/
def Q_initial : ℚ := 1

/-- `initial` (vs.py lines 149-165). -/
def initial (nm : NumModel) (ivpP : IvpScalar) (L : Laws) (s : Session) : Vec4 :=
  { S := 0
    P := P_ph nm ivpP L s / s.P_norm
    Q := Q_initial
    T := nm.powQ (Q_initial * s.Q_norm / sigmaSB) (1 / 4) / s.T_norm }

/-- `integrate` (vs.py lines 202-222): asserts `t[0] == 0`, then hands the
system to the ODE solver on `(t[0], t[-1])` with the `initial` state and
`t_eval = t`.  Indexing `t[0]` on an empty array is an `IndexError`. -/
def integrate (nm : NumModel) (ivpP : IvpScalar) (ivp4 : Ivp4) (L : Laws)
    (s : Session) (t : List ℚ) : Except PyErr (List Vec4 × String) :=
  match t with
  | [] => .error .indexError
  | t0 :: rest =>
    if t0 = 0 then
      .ok (ivp4 (dydtVec L s) t0 ((t0 :: rest).getLastD t0)
        (initial nm ivpP L s) (t0 :: rest) s.eps)
    else
      .error .assertionError

/-- `y_c` (vs.py lines 241-243): the state at the last point of
`integrate([0, 1])`.  The grid `[0, 1]` always passes the assertion, so the
error branch below is unreachable; the solver is assumed to return at least
one sample (scipy always does), hence the default. -/
def y_c (nm : NumModel) (ivpP : IvpScalar) (ivp4 : Ivp4) (L : Laws)
    (s : Session) : Vec4 :=
  match integrate nm ivpP ivp4 L s [0, 1] with
  | .ok (ys, _) => ys.getLastD { S := 0, P := 0, Q := 0, T := 0 }
  | .error _ => { S := 0, P := 0, Q := 0, T := 0 }

/-- The inner residual `dq` of `fit` (vs.py lines 305-308): set
`z0 = z0r * r` (running the setter) and return the midplane flux
`y_c()[Vars.Q]`. -/
def dqOf (nm : NumModel) (ivpP : IvpScalar) (ivp4 : Ivp4) (L : Laws)
    (s : Session) (z0r : ℚ) : ℚ :=
  (y_c nm ivpP ivp4 L (setZ0 s (z0r * s.r))).Q

/-- The expansion factor chosen by `fit` (vs.py lines 312-315):
`2.0` when the first residual is positive, `0.5` otherwise. -/
def expFactor (dq : ℚ → ℚ) (z0r0 : ℚ) : ℚ :=
  if 0 < dq z0r0 then 2 else 1 / 2

/-- The `while True` bracket-expansion loop of `fit` (vs.py lines 317-320),
given a fuel bound: multiply the trial by `factor` and stop at the first
trial whose residual has opposite sign to the first residual.  `none` means
the fuel ran out, i.e. the Python loop would still be running. -/
def bracketLoop (dq : ℚ → ℚ) (sign_dq factor : ℚ) : ℕ → ℚ → Option ℚ
  | 0, _ => none
  | n + 1, z0r =>
    let z := z0r * factor
    if sign_dq * dq z < 0 then some z else bracketLoop dq sign_dq factor n z

/-- `fit` (vs.py lines 294-323) with the residual `dq`, the external root
refiner `brentq` and the starting `z0r` abstracted: evaluate the residual at
the start, choose the factor, expand until a sign change, refine with
`brentq` on `(z0r, z0r / factor)` and return its root and diagnostic. -/
def fit (dq : ℚ → ℚ) (brentq : (ℚ → ℚ) → ℚ → ℚ → ℚ × Bool) (z0r0 : ℚ)
    (fuel : ℕ) : Option (ℚ × Bool) :=
  let sign_dq := dq z0r0
  let factor : ℚ := if 0 < sign_dq then 2 else 1 / 2
  match bracketLoop dq sign_dq factor fuel z0r0 with
  | none => none
  | some z => some (brentq dq z (z / factor))

/-- `fit` on a session: the starting trial is the session's current
`z0 / r` (vs.py line 310). -/
def fitSession (nm : NumModel) (ivpP : IvpScalar) (ivp4 : Ivp4) (L : Laws)
    (brentq : (ℚ → ℚ) → ℚ → ℚ → ℚ × Bool) (s : Session) (fuel : ℕ) :
    Option (ℚ × Bool) :=
  fit (dqOf nm ivpP ivp4 L s) brentq (s.z0 / s.r) fuel

/-! Concrete instances used by witnesses and counterexamples. -/

/-- A trivial numeric model: every abstracted primitive returns a fixed
simple value (`sqrt` the identity, `pi = 3`, every power `1`). -/
def nm0 : NumModel := { sqrtQ := fun x => x, piQ := 3, powQ := fun _ _ => 1 }

/-- Trivial scalar IVP solver: returns the initial value unchanged. -/
def ivpP0 : IvpScalar := fun _ _ _ y0 _ => y0

/-- Trivial four-variable IVP solver: one sample, the initial state. -/
def ivp4z : Ivp4 := fun _ _ _ y0 _ _ => ([y0], "ok")

/-- A four-variable IVP solver whose terminal flux depends on the initial
surface temperature, so that the shooting residual genuinely varies with
the trial `z0/r`. -/
def ivp4fit : Ivp4 := fun _ _ _ y0 _ _ => ([{ S := 0, P := 1, Q := y0.T - 4, T := 1 }], "ok")

/-- A model of `scipy.optimize.brentq`: here simply the bracket midpoint
with a `converged` diagnostic. -/
def brentq0 : (ℚ → ℚ) → ℚ → ℚ → ℚ × Bool := fun _ a b => ((a + b) / 2, true)

/-- Ideal-gas EOS (`IdealGasMixin.law_of_rho`, vs.py lines 346-355) with
`mu = 0.6`, auxiliary datum `lnfree_e = 0`, and an opacity proportional to
density (the Kramers law `5e24 * rho ** 1 * T ** (-7/2)` at `T = 1`). -/
def Lc : Laws :=
  { law_of_rho := fun P T => P * (3 / 5) / (R_gas * T)
    lnfree_e := 0
    law_of_opacity := fun rho _ _ => 5e24 * rho }

/-- Ideal-gas EOS with `mu = R_gas` (so the density is `P / T` exactly)
and unit opacity. -/
def L3 : Laws :=
  { law_of_rho := fun P T => P * R_gas / (R_gas * T)
    lnfree_e := 0
    law_of_opacity := fun _ _ _ => 1 }

/-- A session whose scale constants are all unity. -/
def sUnit : Session :=
  { Mx := 1, GM := 1, alpha := 1, r := 1, F := 1, omegaK := 1, eps := 1
    mu := 3 / 5, Q_norm := 1, Q0 := 1, z0 := 1, P_norm := 1, T_norm := 1
    sigma_norm := 1, Teff := 1 }

/-- A session prepared for exercising `fit`: `mu = R_gas` makes the
recomputed `T_norm` equal to `z0 ^ 2`, so the residual produced by
`ivp4fit` is `1 / z0r ^ 2 - 4`. -/
def sFit : Session :=
  { Mx := 1, GM := 1, alpha := 1, r := 1, F := 1, omegaK := 1, eps := 1
    mu := R_gas, Q_norm := 1, Q0 := 1, z0 := 1 / 4, P_norm := 1, T_norm := 1
    sigma_norm := 1, Teff := 1 }

/-- `sFit` with different raw physical inputs (`Mx`, `F`, `GM`) but the same
fields that the `z0` setter reads. -/
def sFit2 : Session := { sFit with Mx := 5, F := 7, GM := 9 }

/-! The concrete opacity mixins, embedded over `ℝ` (their exponents are
fractional, so the float power maps to `Real.rpow`). -/

/-- `KramersOpacityMixin.varkappa0` (vs.py line 359). -/
noncomputable def varkappa0 : ℝ := 5e24

/-- `KramersOpacityMixin.zeta` (vs.py line 360). -/
noncomputable def zeta : ℝ := 1

/-- `KramersOpacityMixin.gamma` (vs.py line 361). -/
noncomputable def gamma : ℝ := -7 / 2

/-- `KramersOpacityMixin.law_of_opacity` (vs.py lines 363-364):
`varkappa0 * rho ** zeta * T ** gamma`; the `lnfree_e` argument is accepted
but never read. -/
noncomputable def kramers_law_of_opacity (rho T lnfree_e : ℝ) : ℝ :=
  varkappa0 * rho ^ zeta * T ^ gamma

/-- `BellLin1994TwoComponentOpacityMixin` attributes (vs.py lines 368-373). -/
noncomputable def varkappa0_ff : ℝ := 1.5e20

noncomputable def zeta_ff : ℝ := 1

noncomputable def gamma_ff : ℝ := -5 / 2

noncomputable def varkappa0_h : ℝ := 1.0e-36

noncomputable def zeta_h : ℝ := 1 / 3

noncomputable def gamma_h : ℝ := 10

/-- `opacity_h` (vs.py lines 375-376). -/
noncomputable def opacity_h (rho T : ℝ) : ℝ := varkappa0_h * rho ^ zeta_h * T ^ gamma_h

/-- `opacity_ff` (vs.py lines 378-379). -/
noncomputable def opacity_ff (rho T : ℝ) : ℝ := varkappa0_ff * rho ^ zeta_ff * T ^ gamma_ff

/-- `BellLin1994TwoComponentOpacityMixin.law_of_opacity` (vs.py lines
381-382): `np.minimum` of the two branches; `lnfree_e` is accepted but
never read. -/
noncomputable def bellLin_law_of_opacity (rho T lnfree_e : ℝ) : ℝ :=
  min (opacity_h rho T) (opacity_ff rho T)

/-! Helper lemmas. -/

/-- If the bracket-expansion loop stops within its fuel, it stops at the
first trial `z0 * f ^ k` (for some `k ≥ 1`) whose residual has opposite
sign to the reference residual `sd`; earlier trials did not change sign. -/
theorem bracketLoop_some_spec (dq : ℚ → ℚ) (sd f : ℚ) :
    ∀ (fuel : ℕ) (z0 z : ℚ), bracketLoop dq sd f fuel z0 = some z →
      ∃ k : ℕ, 1 ≤ k ∧ k ≤ fuel ∧ z = z0 * f ^ k ∧ sd * dq (z0 * f ^ k) < 0 ∧
        ∀ j : ℕ, 1 ≤ j → j < k → ¬sd * dq (z0 * f ^ j) < 0 := by
  intro fuel
  induction fuel with
  | zero => intro z0 z h; exact absurd h (by simp [bracketLoop])
  | succ n ih =>
    intro z0 z h
    simp only [bracketLoop] at h
    by_cases hc : sd * dq (z0 * f) < 0
    · rw [if_pos hc] at h
      refine ⟨1, le_refl 1, Nat.succ_le_succ (Nat.zero_le n), ?_, ?_, ?_⟩
      · rw [pow_one]; exact (Option.some.inj h).symm
      · rw [pow_one]; exact hc
      · intro j hj1 hj2; omega
    · rw [if_neg hc] at h
      obtain ⟨k, hk1, hkn, hz, hsign, hprev⟩ := ih (z0 * f) z h
      have hpow : ∀ m : ℕ, z0 * f * f ^ m = z0 * f ^ (m + 1) := by
        intro m; rw [pow_succ]; ring
      refine ⟨k + 1, by omega, by omega, ?_, ?_, ?_⟩
      · rw [hz, hpow]
      · rw [← hpow]; exact hsign
      · intro j hj1 hj2
        match j, hj1 with
        | 1, _ => rw [pow_one]; exact hc
        | (m + 2), _ =>
          rw [← hpow (m + 1)]
          exact hprev (m + 1) (by omega) (by omega)

/-- With a residual that is identically `1`, the bracket loop finds no sign
change at any fuel bound. -/
theorem bracketLoop_const_one (fuel : ℕ) :
    ∀ z : ℚ, bracketLoop (fun _ => 1) 1 2 fuel z = none := by
  induction fuel with
  | zero => intro z; rfl
  | succ n ih =>
    intro z
    simp only [bracketLoop]
    rw [if_neg (by norm_num)]
    exact ih (z * 2)

/-! Claim theorems. -/

/-- Claim C1: `fit` performs the spec's shooting algorithm: it evaluates the
residual `dq` at the initial trial `z0r0`; the expansion factor is `2` when
that first residual is positive and `1/2` when it is negative; whenever
`fit` returns, the returned pair is the result of the Brent-refinement
routine applied to the bracket `(z0r0 * f ^ k, z0r0 * f ^ (k - 1))`, where
`z0r0 * f ^ k` is the first expanded trial whose residual changed sign
relative to the first residual.  The residual function, the root refiner
and the starting trial are the exact parameters of the source: `dq` is
instantiated by `dqOf` for any solve session (see `fitSession`). -/
theorem fit_follows_shooting_algorithm (dq : ℚ → ℚ)
    (brentq : (ℚ → ℚ) → ℚ → ℚ → ℚ × Bool) (z0r0 : ℚ) (fuel : ℕ)
    (res : ℚ × Bool) (h : fit dq brentq z0r0 fuel = some res) :
    (0 < dq z0r0 → expFactor dq z0r0 = 2) ∧
    (dq z0r0 < 0 → expFactor dq z0r0 = 1 / 2) ∧
    ∃ k : ℕ, 1 ≤ k ∧ k ≤ fuel ∧
      dq z0r0 * dq (z0r0 * expFactor dq z0r0 ^ k) < 0 ∧
      (∀ j : ℕ, 1 ≤ j → j < k → ¬dq z0r0 * dq (z0r0 * expFactor dq z0r0 ^ j) < 0) ∧
      res = brentq dq (z0r0 * expFactor dq z0r0 ^ k)
        (z0r0 * expFactor dq z0r0 ^ k / expFactor dq z0r0) := by
  refine ⟨fun hp => if_pos hp, fun hn => if_neg (not_lt.mpr hn.le), ?_⟩
  have hfit : (match bracketLoop dq (dq z0r0) (expFactor dq z0r0) fuel z0r0 with
      | none => (none : Option (ℚ × Bool))
      | some z => some (brentq dq z (z / expFactor dq z0r0))) = some res := h
  cases hb : bracketLoop dq (dq z0r0) (expFactor dq z0r0) fuel z0r0 with
  | none => rw [hb] at hfit; exact absurd hfit (by simp)
  | some z =>
    rw [hb] at hfit
    obtain ⟨k, hk1, hkf, hz, hsign, hprev⟩ :=
      bracketLoop_some_spec dq (dq z0r0) (expFactor dq z0r0) fuel z0r0 z hb
    exact ⟨k, hk1, hkf, hsign, hprev, by rw [← hz]; exact (Option.some.inj hfit).symm⟩

/-- Claim C1 witness: a concrete session-driven residual through `dqOf`
(`1 / z0r ^ 2 - 4` via `ivp4fit`), started at `z0r = 1/4` with fuel `10`,
for which `fit` returns the refined pair `(3/4, true)`. -/
theorem fit_follows_shooting_algorithm_witness :
    (0 < dqOf nm0 ivpP0 ivp4fit Lc sFit (1 / 4) →
      expFactor (dqOf nm0 ivpP0 ivp4fit Lc sFit) (1 / 4) = 2) ∧
    (dqOf nm0 ivpP0 ivp4fit Lc sFit (1 / 4) < 0 →
      expFactor (dqOf nm0 ivpP0 ivp4fit Lc sFit) (1 / 4) = 1 / 2) ∧
    ∃ k : ℕ, 1 ≤ k ∧ k ≤ 10 ∧
      dqOf nm0 ivpP0 ivp4fit Lc sFit (1 / 4) *
        dqOf nm0 ivpP0 ivp4fit Lc sFit
          (1 / 4 * expFactor (dqOf nm0 ivpP0 ivp4fit Lc sFit) (1 / 4) ^ k) < 0 ∧
      (∀ j : ℕ, 1 ≤ j → j < k →
        ¬dqOf nm0 ivpP0 ivp4fit Lc sFit (1 / 4) *
          dqOf nm0 ivpP0 ivp4fit Lc sFit
            (1 / 4 * expFactor (dqOf nm0 ivpP0 ivp4fit Lc sFit) (1 / 4) ^ j) < 0) ∧
      ((3 : ℚ) / 4, true) = brentq0 (dqOf nm0 ivpP0 ivp4fit Lc sFit)
        (1 / 4 * expFactor (dqOf nm0 ivpP0 ivp4fit Lc sFit) (1 / 4) ^ k)
        (1 / 4 * expFactor (dqOf nm0 ivpP0 ivp4fit Lc sFit) (1 / 4) ^ k /
          expFactor (dqOf nm0 ivpP0 ivp4fit Lc sFit) (1 / 4)) :=
  fit_follows_shooting_algorithm (dqOf nm0 ivpP0 ivp4fit Lc sFit) brentq0
    (1 / 4) 10 (3 / 4, true) (by
      norm_num [fit, bracketLoop, dqOf, y_c, integrate, initial, P_ph, setZ0,
        sFit, Lc, nm0, ivpP0, ivp4fit, dydtVec, Q_initial, R_gas, sigmaSB, brentq0])

/-- Claim C2 (amended): the radiative temperature-gradient law uses its
special-cased closed form exactly at the midplane boundary `t = 1` of the
integration coordinate — where the generic formula is singular because
`dP/dz` is proportional to `1 - t` — and the general formula at every other
coordinate value, including the surface `t = 0`. -/
theorem dlnTdlnP_special_case_at_midplane (L : Laws) (s : Session) (y : Vec4)
    (t : ℚ) :
    (t = 1 → dlnTdlnP L s y t = dlnTdlnP_special L s y) ∧
    (t ≠ 1 → dlnTdlnP L s y t = dlnTdlnP_general L s y t) := by
  constructor <;> intro h <;> simp [dlnTdlnP, h]

/-- Claim C2 amended-theorem witness: at the surface `t = 0` the law
evaluates through the general branch. -/
theorem dlnTdlnP_special_case_at_midplane_witness :
    dlnTdlnP Lc sUnit { S := 0, P := 1, Q := 1, T := 1 } 0 =
      dlnTdlnP_general Lc sUnit { S := 0, P := 1, Q := 1, T := 1 } 0 :=
  (dlnTdlnP_special_case_at_midplane Lc sUnit { S := 0, P := 1, Q := 1, T := 1 } 0).2
    (by norm_num)

/-- Claim C2 counterexample: at the surface `t = 0` the code returns the
general formula's value, which differs from the special closed form there;
and at `t = 1` — a point of the claim's interval `(0, 1]` — it returns the
special form's value, which differs from the general formula's value.  So
the special case is at the midplane `t = 1`, not at the surface `t = 0` as
claimed. -/
theorem dlnTdlnP_special_case_at_surface_false :
    dlnTdlnP Lc sUnit { S := 0, P := 1, Q := 1, T := 1 } 0 ≠
      dlnTdlnP_special Lc sUnit { S := 0, P := 1, Q := 1, T := 1 } ∧
    dlnTdlnP Lc sUnit { S := 0, P := 1, Q := 1, T := 1 } 1 ≠
      dlnTdlnP_general Lc sUnit { S := 0, P := 1, Q := 1, T := 1 } 1 := by
  constructor <;>
    norm_num [dlnTdlnP, dlnTdlnP_special, dlnTdlnP_general, dQdz, viscosity,
      law_of_viscosity, opacityOf, rhoOf, Lc, sUnit, R_gas, sigmaSB]

/-- Claim C3: what the code actually does on a negative temperature inside
`dydt`.  At the state `(S, P, Q, T) = (0, 1, 1, -1)` the guard
`y[Vars.T] < 0 or y[Vars.S] < 0` fires (first component `true`, modelling
the `print` plus `breakpoint()` at vs.py lines 191-193), and the evaluation
then continues with the negative temperature, returning a complete
derivative vector — including a negative mass-coordinate derivative `-2`
from the negative density — instead of raising a domain error. -/
theorem dydt_negative_T_continues :
    dydt L3 sUnit 0 { S := 0, P := 1, Q := 1, T := -1 } =
      (true, { S := -2, P := -1, Q := -(3 / 2), T := 3 / (16 * sigmaSB) }) := by
  norm_num [dydt, dlnTdlnP, dlnTdlnP_special, dlnTdlnP_general, dQdz,
    viscosity, law_of_viscosity, opacityOf, rhoOf, L3, sUnit, R_gas, sigmaSB]

/-- Claim C4: what the code actually does when the residual never changes
sign.  The `while True` expansion loop of `fit` has no iteration budget: for
the residual that is identically `1` (positive at every trial), `fit` fails
to return for EVERY fuel bound — the loop would run forever — and no
bracketing-failure diagnostic is ever produced. -/
theorem fit_bracket_expansion_unbounded
    (brentq : (ℚ → ℚ) → ℚ → ℚ → ℚ × Bool) (z0r0 : ℚ) (fuel : ℕ) :
    fit (fun _ => 1) brentq z0r0 fuel = none := by
  simp [fit, bracketLoop_const_one]

/-- Claim C5: what the code actually does on `alpha = 0`.  The constructor
performs no input validation: with `alpha = 0` (and otherwise positive
inputs `Mx = 2e33`, `r = 1e10`, `F = 1e30`) construction fails with a
`ZeroDivisionError` raised incidentally inside `z0_init` by the float power
`0.0 ** (-1/10)` — not with any InvalidInputError-style rejection (no such
validation or error type exists in the code). -/
theorem mkSession_alpha_zero_zero_division (nm : NumModel) :
    mkSession nm { Mx := 2e33, alpha := 0, r := 1e10, F := 1e30, eps := 1e-5, mu := 3 / 5 } =
      .error .zeroDivision := by
  norm_num [mkSession, z0_init, pyPow, M_sun]

/-- Claim C6: assigning a new `z0` through the setter recomputes `P_norm`,
`T_norm` and `sigma_norm` as pure functions of the fields it reads
(`alpha`, `mu`, `omegaK`, `Q_norm` — themselves functions of the physical
inputs — and the new `z0`): two sessions agreeing on those fields get equal
scale constants from an assignment of the same `z0`.  Every other field —
`Teff`, `Q_norm`, `Q0`, `omegaK` and all physical inputs — is left
unchanged. -/
theorem setZ0_deterministic_and_frame (s1 s2 : Session) (z0 : ℚ)
    (ha : s1.alpha = s2.alpha) (hm : s1.mu = s2.mu)
    (hw : s1.omegaK = s2.omegaK) (hq : s1.Q_norm = s2.Q_norm) :
    ((setZ0 s1 z0).P_norm = (setZ0 s2 z0).P_norm ∧
     (setZ0 s1 z0).T_norm = (setZ0 s2 z0).T_norm ∧
     (setZ0 s1 z0).sigma_norm = (setZ0 s2 z0).sigma_norm) ∧
    ((setZ0 s1 z0).Teff = s1.Teff ∧ (setZ0 s1 z0).Q_norm = s1.Q_norm ∧
     (setZ0 s1 z0).Q0 = s1.Q0 ∧ (setZ0 s1 z0).omegaK = s1.omegaK ∧
     (setZ0 s1 z0).Mx = s1.Mx ∧ (setZ0 s1 z0).alpha = s1.alpha ∧
     (setZ0 s1 z0).r = s1.r ∧ (setZ0 s1 z0).F = s1.F ∧
     (setZ0 s1 z0).mu = s1.mu ∧ (setZ0 s1 z0).eps = s1.eps ∧
     (setZ0 s1 z0).GM = s1.GM ∧ (setZ0 s1 z0).z0 = z0) := by
  simp [setZ0, ha, hm, hw, hq]

/-- Claim C6 witness: two sessions differing in raw inputs (`Mx`, `F`, `GM`)
but agreeing on the fields the setter reads, assigned the same `z0 = 2`. -/
theorem setZ0_deterministic_and_frame_witness :
    ((setZ0 sFit 2).P_norm = (setZ0 sFit2 2).P_norm ∧
     (setZ0 sFit 2).T_norm = (setZ0 sFit2 2).T_norm ∧
     (setZ0 sFit 2).sigma_norm = (setZ0 sFit2 2).sigma_norm) ∧
    ((setZ0 sFit 2).Teff = sFit.Teff ∧ (setZ0 sFit 2).Q_norm = sFit.Q_norm ∧
     (setZ0 sFit 2).Q0 = sFit.Q0 ∧ (setZ0 sFit 2).omegaK = sFit.omegaK ∧
     (setZ0 sFit 2).Mx = sFit.Mx ∧ (setZ0 sFit 2).alpha = sFit.alpha ∧
     (setZ0 sFit 2).r = sFit.r ∧ (setZ0 sFit 2).F = sFit.F ∧
     (setZ0 sFit 2).mu = sFit.mu ∧ (setZ0 sFit 2).eps = sFit.eps ∧
     (setZ0 sFit 2).GM = sFit.GM ∧ (setZ0 sFit 2).z0 = 2) :=
  setZ0_deterministic_and_frame sFit sFit2 2 rfl rfl rfl rfl

/-- Claim C7: the interior integration's initial state at `t = 0` is
exactly `S = 0`; `P` the photospheric pressure divided by `P_norm`, the
photospheric pressure being the terminal value at `tau = 2/3` of the
pressure IVP started from the floor `1e-7 * P_norm` at `tau = 0`, with
local temperature `T(tau) = Teff * (1/2 + 3 tau/4) ** (1/4)` and density
and opacity from the EOS and opacity laws; `Q = 1`; and `T` the surface
value `(Q_norm / sigmaSB) ** (1/4) / T_norm`. -/
theorem initial_conditions_exact (nm : NumModel) (ivpP : IvpScalar) (L : Laws)
    (s : Session) :
    initial nm ivpP L s =
      { S := 0
        P := P_ph nm ivpP L s / s.P_norm
        Q := 1
        T := nm.powQ (s.Q_norm / sigmaSB) (1 / 4) / s.T_norm } ∧
    P_ph nm ivpP L s =
      ivpP (photospheric_pressure_equation nm L s) 0 (2 / 3) (1e-7 * s.P_norm) s.eps ∧
    ∀ tau P : ℚ, photospheric_pressure_equation nm L s tau P =
      s.z0 * s.omegaK ^ 2 /
        L.law_of_opacity
          (L.law_of_rho P (s.Teff * nm.powQ (1 / 2 + 3 * tau / 4) (1 / 4)))
          (s.Teff * nm.powQ (1 / 2 + 3 * tau / 4) (1 / 4)) L.lnfree_e := by
  refine ⟨?_, rfl, fun tau P => rfl⟩
  simp [initial, Q_initial, one_mul]

/-- Claim C8: the mass-coordinate component of the interior right-hand side
is exactly `2 * rho * z0 / sigma_norm` (vs.py line 195), hence non-negative
whenever the density is non-negative (and the session's `z0` and
`sigma_norm` are non-negative, as they are for physical inputs); so `S` is
non-decreasing in `t` along any integration on which the density stays
non-negative. -/
theorem dydt_mass_coordinate_monotone (L : Laws) (s : Session) (t : ℚ)
    (y : Vec4) (hrho : 0 ≤ rhoOf L s y) (hz : 0 ≤ s.z0)
    (hsig : 0 ≤ s.sigma_norm) :
    (dydt L s t y).2.S = 2 * rhoOf L s y * s.z0 / s.sigma_norm ∧
    0 ≤ (dydt L s t y).2.S := by
  refine ⟨rfl, ?_⟩
  show 0 ≤ 2 * rhoOf L s y * s.z0 / s.sigma_norm
  exact div_nonneg (mul_nonneg (mul_nonneg (by norm_num) hrho) hz) hsig

/-- Claim C8 witness: the ideal-gas density at the unit surface state is
non-negative and the mass-coordinate derivative there is non-negative. -/
theorem dydt_mass_coordinate_monotone_witness :
    (dydt Lc sUnit 0 { S := 0, P := 1, Q := 1, T := 1 }).2.S =
      2 * rhoOf Lc sUnit { S := 0, P := 1, Q := 1, T := 1 } * sUnit.z0 /
        sUnit.sigma_norm ∧
    0 ≤ (dydt Lc sUnit 0 { S := 0, P := 1, Q := 1, T := 1 }).2.S :=
  dydt_mass_coordinate_monotone Lc sUnit 0 { S := 0, P := 1, Q := 1, T := 1 }
    (by norm_num [rhoOf, Lc, sUnit, R_gas]) (by norm_num [sUnit])
    (by norm_num [sUnit])

/-- Claim C9: `integrate` requires its evaluation grid to start at the
surface coordinate.  For every non-empty grid whose head is not `0` it
fails with the `assert t[0] == 0` assertion — and the failure is
independent of the ODE solver, i.e. it happens before any integration step;
for every grid whose head is `0` the assertion passes and the solver is
invoked on the grid with the `initial` state. -/
theorem integrate_requires_surface_start (nm : NumModel) (ivpP : IvpScalar)
    (ivp4a ivp4b : Ivp4) (L : Laws) (s : Session) (t0 : ℚ) (ts : List ℚ) :
    (t0 ≠ 0 →
      integrate nm ivpP ivp4a L s (t0 :: ts) = .error .assertionError ∧
      integrate nm ivpP ivp4a L s (t0 :: ts) =
        integrate nm ivpP ivp4b L s (t0 :: ts)) ∧
    (t0 = 0 →
      integrate nm ivpP ivp4a L s (t0 :: ts) =
        .ok (ivp4a (dydtVec L s) t0 ((t0 :: ts).getLastD t0)
          (initial nm ivpP L s) (t0 :: ts) s.eps)) := by
  constructor <;> intro h <;> simp [integrate, h]

/-- Claim C9 witness: the grid `[1]` is rejected by the assertion. -/
theorem integrate_requires_surface_start_witness :
    integrate nm0 ivpP0 ivp4z Lc sUnit (1 :: []) = .error .assertionError :=
  ((integrate_requires_surface_start nm0 ivpP0 ivp4z ivp4z Lc sUnit 1 []).1
    (by norm_num)).1

/-- Claim C10: for both supplied opacity variants — the Kramers power law
and the Bell & Lin (1994) two-component minimum law — the result of
`law_of_opacity (rho, T, lnfree_e)` does not depend on the `lnfree_e`
argument: for every positive density and temperature and any two `lnfree_e`
values the calls return equal opacities. -/
theorem law_of_opacity_ignores_lnfree_e (rho T l1 l2 : ℝ) (hrho : 0 < rho)
    (hT : 0 < T) :
    kramers_law_of_opacity rho T l1 = kramers_law_of_opacity rho T l2 ∧
    bellLin_law_of_opacity rho T l1 = bellLin_law_of_opacity rho T l2 :=
  ⟨rfl, rfl⟩

/-- Claim C10 witness. -/
theorem law_of_opacity_ignores_lnfree_e_witness :
    (0 : ℝ) < 1 ∧
    (kramers_law_of_opacity 1 1 0 = kramers_law_of_opacity 1 1 5 ∧
     bellLin_law_of_opacity 1 1 0 = bellLin_law_of_opacity 1 1 5) :=
  ⟨one_pos, law_of_opacity_ignores_lnfree_e 1 1 0 5 one_pos one_pos⟩

end VS
